import Mathlib

/-!
Shallow embedding of `godot-core/src/init/mod.rs` (gdext): the GDExtension
initialization/shutdown controller.  Lifecycle levels, the layer registry
(`InitHandle`), the panic-contained FFI entry points, and the load routine
are translated from the Rust source.  Effectful computations are modelled as
`Option α × List Event`: `none` stands for a Rust panic propagating out of
the computation, and the event list records the observable side effects
(diagnostic traces, warnings, panic logs, and layer invocations).
-/

namespace GdextInit

/-- Lifecycle level of the host (Rust enum `InitLevel`, with derived
`Ord` following declaration order). -/
inductive InitLevel where
  | Core
  | Servers
  | Scene
  | Editor
deriving DecidableEq, Fintype, Repr

/-- Declaration-order ordinal of `InitLevel`, embedding the Rust
`#[derive(Ord)]` total order `Core < Servers < Scene < Editor`. -/
def InitLevel.ord : InitLevel → Nat
  | .Core => 0
  | .Servers => 1
  | .Scene => 2
  | .Editor => 3

/-- Variant name as produced by the Rust `Debug` derive (used in
panic-context messages). -/
def InitLevel.debugName : InitLevel → String
  | .Core => "Core"
  | .Servers => "Servers"
  | .Scene => "Scene"
  | .Editor => "Editor"

/-- All levels in ascending declaration order (the iteration order of a
`BTreeMap` keyed by `InitLevel`). -/
def InitLevel.all : List InitLevel :=
  [InitLevel.Core, InitLevel.Servers, InitLevel.Scene, InitLevel.Editor]

/-- Modelled from the spec: the numeric value of the raw host identifier
`GDEXTENSION_INITIALIZATION_CORE`, defined in the `godot-ffi` crate which is
not among the sources here; the GDExtension interface numbers the four
levels consecutively from 0. -/
def GDEXTENSION_INITIALIZATION_CORE : Nat := 0

/-- Modelled from the spec: raw value of `GDEXTENSION_INITIALIZATION_SERVERS`
from the `godot-ffi` crate (see `GDEXTENSION_INITIALIZATION_CORE`). -/
def GDEXTENSION_INITIALIZATION_SERVERS : Nat := 1

/-- Modelled from the spec: raw value of `GDEXTENSION_INITIALIZATION_SCENE`
from the `godot-ffi` crate (see `GDEXTENSION_INITIALIZATION_CORE`). -/
def GDEXTENSION_INITIALIZATION_SCENE : Nat := 2

/-- Modelled from the spec: raw value of `GDEXTENSION_INITIALIZATION_EDITOR`
from the `godot-ffi` crate (see `GDEXTENSION_INITIALIZATION_CORE`). -/
def GDEXTENSION_INITIALIZATION_EDITOR : Nat := 3

/-- Observable side effects of the embedded computations: the `out!`
diagnostic traces of `run_init_function` / `run_deinit_function`, the
`eprintln!` warning of `InitLevel::from_sys`, the log emitted by
`handle_panic` when it catches a panic, and markers recording that a
layer's own `initialize` / `deinitialize` body was entered. -/
inductive Event where
  | initRun (level : InitLevel)
  | initSkip (level : InitLevel)
  | deinitRun (level : InitLevel)
  | deinitSkip (level : InitLevel)
  | layerInitRun (id : Nat)
  | layerDeinitRun (id : Nat)
  | warnUnknownLevel (raw : Nat)
  | panicLogged (msg : String)
deriving DecidableEq, Repr

/-- Result value of `InitLevel::from_sys`: match the raw value against the
four recognized constants; any other value falls through to `Scene`. -/
def InitLevel.from_sys (level : Nat) : InitLevel :=
  if level = GDEXTENSION_INITIALIZATION_CORE then InitLevel.Core
  else if level = GDEXTENSION_INITIALIZATION_SERVERS then InitLevel.Servers
  else if level = GDEXTENSION_INITIALIZATION_SCENE then InitLevel.Scene
  else if level = GDEXTENSION_INITIALIZATION_EDITOR then InitLevel.Editor
  else InitLevel.Scene

/-- Side effect of `InitLevel::from_sys`: the `eprintln!` warning emitted on
the fall-through branch for an unknown raw value. -/
def from_sys_warnings (level : Nat) : List Event :=
  if level = GDEXTENSION_INITIALIZATION_CORE then []
  else if level = GDEXTENSION_INITIALIZATION_SERVERS then []
  else if level = GDEXTENSION_INITIALIZATION_SCENE then []
  else if level = GDEXTENSION_INITIALIZATION_EDITOR then []
  else [Event.warnUnknownLevel level]

/-- `InitLevel::to_sys`. -/
def InitLevel.to_sys : InitLevel → Nat
  | .Core => GDEXTENSION_INITIALIZATION_CORE
  | .Servers => GDEXTENSION_INITIALIZATION_SERVERS
  | .Scene => GDEXTENSION_INITIALIZATION_SCENE
  | .Editor => GDEXTENSION_INITIALIZATION_EDITOR

/-- A registered `ExtensionLayer` trait object.  Its two operations are
opaque user code; the model keeps an identity `id` (to tell layers apart)
and, for each operation, whether its body panics when invoked. -/
structure ExtensionLayer where
  id : Nat
  initPanics : Bool
  deinitPanics : Bool
deriving DecidableEq, Repr

/-- `InitHandle`: owns `layers: BTreeMap<InitLevel, Box<dyn ExtensionLayer>>`,
embedded as a finite map from the (closed, four-element) key type. -/
structure InitHandle where
  layers : InitLevel → Option ExtensionLayer

/-- `InitHandle::new()`: the empty registry. -/
def InitHandle.new : InitHandle := ⟨fun _ => none⟩

/-- `InitHandle::register_layer`: `self.layers.insert(level, Box::new(layer))`
(a `BTreeMap` insert replaces any previous value at the key). -/
def InitHandle.register_layer (h : InitHandle) (level : InitLevel)
    (layer : ExtensionLayer) : InitHandle :=
  ⟨fun l => if l = level then some layer else h.layers l⟩

/-- `InitHandle::lowest_init_level`: `self.layers.iter().next()` yields the
minimum key of the `BTreeMap` (ascending iteration), `unwrap_or(Scene)`. -/
def InitHandle.lowest_init_level (h : InitHandle) : InitLevel :=
  match (InitLevel.all.filter fun l => (h.layers l).isSome).head? with
  | some l => l
  | none => InitLevel.Scene

/-- `InitHandle::run_init_function`: if a layer is registered at `level`,
trace and invoke its `initialize` (which may panic); otherwise trace a skip.
The returned triple is (result (`none` = panic), emitted events, the handle
after the call — the map structure is never modified by dispatch). -/
def InitHandle.run_init_function (h : InitHandle) (level : InitLevel) :
    Option Unit × List Event × InitHandle :=
  match h.layers level with
  | some layer =>
      ((if layer.initPanics then none else some ()),
       [Event.initRun level, Event.layerInitRun layer.id], h)
  | none => (some (), [Event.initSkip level], h)

/-- `InitHandle::run_deinit_function`: symmetric to `run_init_function`,
invoking the layer's `deinitialize`. -/
def InitHandle.run_deinit_function (h : InitHandle) (level : InitLevel) :
    Option Unit × List Event × InitHandle :=
  match h.layers level with
  | some layer =>
      ((if layer.deinitPanics then none else some ()),
       [Event.deinitRun level, Event.layerDeinitRun layer.id], h)
  | none => (some (), [Event.deinitSkip level], h)

/-- Modelled from the spec: `crate::private::handle_panic` is not under the
sources here; per the spec (§4.3, §9) it runs a unit of work, and when the
work panics it logs the lazily computed context message and yields no result
instead of letting the unwind propagate.  `ctx` returns the message together
with any side effects of computing it (the source context closures call
`InitLevel::from_sys`, which can print a warning). -/
def handle_panic {α : Type} (ctx : Unit → String × List Event)
    (body : Option α × List Event) : Option α × List Event :=
  match body with
  | (some a, evs) => (some a, evs)
  | (none, evs) => (none, evs ++ (ctx ()).2 ++ [Event.panicLogged (ctx ()).1])

/-- Context message of `ffi_initialize_layer`
(`format!("failed to initialize GDExtension layer `{:?}`", ...)`). -/
def init_ctx_msg (l : InitLevel) : String :=
  "failed to initialize GDExtension layer `" ++ l.debugName ++ "`"

/-- Context message of `ffi_deinitialize_layer`. -/
def deinit_ctx_msg (l : InitLevel) : String :=
  "failed to deinitialize GDExtension layer `" ++ l.debugName ++ "`"

/-- `ffi_initialize_layer`: the host-invoked per-level callback.  `slot` is
the current content of the `INIT_HANDLE` static; `raw` the raw level from
the host.  Inside `handle_panic`: `INIT_HANDLE.as_mut().unwrap()` (panics
when the slot is `None`), then `run_init_function(InitLevel::from_sys(raw))`.
The callback itself returns void — the first component of the result is the
callback's own termination (`some ()` = returned normally to the host). -/
def ffi_initialize_layer (slot : Option InitHandle) (raw : Nat) :
    Option Unit × List Event :=
  let body : Option Unit × List Event :=
    match slot with
    | none => (none, [])
    | some h =>
        let r := h.run_init_function (InitLevel.from_sys raw)
        (r.1, from_sys_warnings raw ++ r.2.1)
  let r := handle_panic
    (fun _ => (init_ctx_msg (InitLevel.from_sys raw), from_sys_warnings raw))
    body
  (some (), r.2)

/-- `ffi_deinitialize_layer`: symmetric to `ffi_initialize_layer`. -/
def ffi_deinitialize_layer (slot : Option InitHandle) (raw : Nat) :
    Option Unit × List Event :=
  let body : Option Unit × List Event :=
    match slot with
    | none => (none, [])
    | some h =>
        let r := h.run_deinit_function (InitLevel.from_sys raw)
        (r.1, from_sys_warnings raw ++ r.2.1)
  let r := handle_panic
    (fun _ => (deinit_ctx_msg (InitLevel.from_sys raw), from_sys_warnings raw))
    body
  (some (), r.2)

/-- Rust enum `EditorRunBehavior`. -/
inductive EditorRunBehavior where
  | ToolClassesOnly
  | AllClasses
deriving DecidableEq, Repr

/-- The `tool_only_in_editor` match at the start of the load body. -/
def tool_only_in_editor : EditorRunBehavior → Bool
  | .ToolClassesOnly => true
  | .AllClasses => false

/-- The `GDExtensionInitialization` function table written to the host's
output parameter `*init`.  The two callback function pointers are abstracted
to presence flags (`Some(ffi_initialize_layer)` / `Some(ffi_deinitialize_layer)`
are always these fixed functions), and the null `userdata` pointer to a
flag. -/
structure GDExtensionInitialization where
  minimum_initialization_level : Nat
  userdata_is_null : Bool
  has_init_callback : Bool
  has_deinit_callback : Bool
deriving DecidableEq, Repr

/-- The process-wide mutable state touched by `__gdext_load_library`: the
host's output slot `*init` and the `INIT_HANDLE` static (`None` before
load). -/
structure LoadState where
  init_out : Option GDExtensionInitialization
  INIT_HANDLE : Option InitHandle

/-- The `init_code` closure of `__gdext_load_library`, after the opaque
external steps (`GdextConfig` construction and `sys::initialize`, which do
not touch `LoadState`): construct a fresh `InitHandle`, run the
extension-supplied `E::load_library(&mut handle)` builder (modelled as a
function from the fresh handle to `none` on panic, or `some` of its boolean
result and the mutated handle), then — with no early exit — populate the
output table, store the handle into `INIT_HANDLE`, and return `success as u8`.
A panic in the builder aborts the closure before any write to `LoadState`. -/
def load_init_code (load_library : InitHandle → Option (Bool × InitHandle))
    (_st : LoadState) : Option (Nat × LoadState) :=
  match load_library InitHandle.new with
  | none => none
  | some (success, handle) =>
      some
        ((if success then 1 else 0),
         ⟨some ⟨handle.lowest_init_level.to_sys, true, true, true⟩,
          some handle⟩)

/-- `__gdext_load_library`: run `init_code` under `handle_panic` with context
"error when loading GDExtension library", then `is_success.unwrap_or(0)`.
Returns the `GDExtensionBool` result code, the state after the call, and the
emitted events. -/
def __gdext_load_library (load_library : InitHandle → Option (Bool × InitHandle))
    (st : LoadState) : Nat × LoadState × List Event :=
  let r := handle_panic
    (fun _ => ("error when loading GDExtension library", []))
    (load_init_code load_library st, [])
  match r with
  | (some (code, st2), evs) => (code, st2, evs)
  | (none, evs) => (0, st, evs)

/-- A sequence of `register_layer` calls applied in order to a handle. -/
def applyRegs (h : InitHandle) (regs : List (InitLevel × ExtensionLayer)) :
    InitHandle :=
  regs.foldl (fun acc p => acc.register_layer p.1 p.2) h

/-- The last layer registered at level `l` in a sequence of registrations
(later entries take precedence). -/
def lastRegistered : List (InitLevel × ExtensionLayer) → InitLevel →
    Option ExtensionLayer
  | [], _ => none
  | p :: rest, l =>
      match lastRegistered rest l with
      | some a => some a
      | none => if p.1 = l then some p.2 else none

/-- Sample layer used in concrete witnesses. -/
def layerA : ExtensionLayer := ⟨1, false, false⟩

/-- Second sample layer used in concrete witnesses. -/
def layerA2 : ExtensionLayer := ⟨2, false, false⟩

/-- A layer whose two operations both panic. -/
def exPanicLayer : ExtensionLayer := ⟨7, true, true⟩

/-- A handle with the panicking layer registered at every level. -/
def exPanicHandle : InitHandle := ⟨fun _ => some exPanicLayer⟩

/-- A handle with a single layer registered at `Servers`. -/
def exHandleServers : InitHandle :=
  ⟨fun l => if l = InitLevel.Servers then some layerA else none⟩

/-- A builder (`E::load_library`) that registers nothing and returns false. -/
def falseBuilder : InitHandle → Option (Bool × InitHandle) :=
  fun h => some (false, h)

/-- A builder that registers nothing and returns true. -/
def trueBuilder : InitHandle → Option (Bool × InitHandle) :=
  fun h => some (true, h)

/-- The pristine pre-load state: empty output slot, `INIT_HANDLE = None`. -/
def st0 : LoadState := ⟨none, none⟩

/-- Registrations applied by `foldl` resolve, at each level, to the last
entry for that level (later entries win), falling back to the starting
handle's content. -/
theorem applyRegs_layers (h : InitHandle)
    (regs : List (InitLevel × ExtensionLayer)) (l : InitLevel) :
    (applyRegs h regs).layers l =
      match lastRegistered regs l with
      | some a => some a
      | none => h.layers l := by
  induction regs generalizing h with
  | nil => simp [applyRegs, lastRegistered]
  | cons p rest ih =>
      have hstep : applyRegs h (p :: rest) =
          applyRegs (h.register_layer p.1 p.2) rest := rfl
      rw [hstep, ih]
      cases hlr : lastRegistered rest l with
      | some a => simp [lastRegistered, hlr]
      | none =>
          by_cases hpl : p.1 = l
          · subst hpl
            simp [lastRegistered, hlr, InitHandle.register_layer]
          · simp [lastRegistered, hlr, InitHandle.register_layer, hpl]
            intro heq
            exact absurd heq.symm hpl

/-- C1: a panic inside a layer's `initialize` or `deinitialize` is caught at
the FFI boundary: `ffi_initialize_layer` / `ffi_deinitialize_layer` always
return normally (void, no unwind and no error value crosses to the host),
and when the registered layer's operation panics, the failure is logged with
the offending level's name. -/
theorem c1_panic_contained (slot : Option InitHandle) (raw : Nat) :
    (ffi_initialize_layer slot raw).1 = some () ∧
    (ffi_deinitialize_layer slot raw).1 = some () ∧
    ∀ h layer, slot = some h →
      h.layers (InitLevel.from_sys raw) = some layer →
      (layer.initPanics = true →
        Event.panicLogged (init_ctx_msg (InitLevel.from_sys raw)) ∈
          (ffi_initialize_layer slot raw).2) ∧
      (layer.deinitPanics = true →
        Event.panicLogged (deinit_ctx_msg (InitLevel.from_sys raw)) ∈
          (ffi_deinitialize_layer slot raw).2) := by
  refine ⟨rfl, rfl, ?_⟩
  rintro h layer rfl hl
  constructor <;> intro hp <;>
    simp [ffi_initialize_layer, ffi_deinitialize_layer, handle_panic,
      InitHandle.run_init_function, InitHandle.run_deinit_function, hl, hp]

/-- Closed instance of `c1_panic_contained`: a layer whose `initialize`
panics, registered at `Core`, invoked through the FFI callback. -/
theorem c1_witness :
    (ffi_initialize_layer (some exPanicHandle) 0).1 = some () ∧
    Event.panicLogged (init_ctx_msg (InitLevel.from_sys 0)) ∈
      (ffi_initialize_layer (some exPanicHandle) 0).2 :=
  ⟨(c1_panic_contained (some exPanicHandle) 0).1,
   ((c1_panic_contained (some exPanicHandle) 0).2.2 exPanicHandle exPanicLayer
      rfl rfl).1 rfl⟩

/-- C2: `__gdext_load_library` returns 1 exactly when the builder returned
true (and nothing panicked); it returns 0 when the builder returns false and
when a panic occurs during the load body. -/
theorem c2_load_result_code
    (load_library : InitHandle → Option (Bool × InitHandle)) (st : LoadState) :
    ((__gdext_load_library load_library st).1 = 1 ↔
       ∃ h, load_library InitHandle.new = some (true, h)) ∧
    (∀ h, load_library InitHandle.new = some (false, h) →
       (__gdext_load_library load_library st).1 = 0) ∧
    (load_library InitHandle.new = none →
       (__gdext_load_library load_library st).1 = 0) := by
  cases hb : load_library InitHandle.new with
  | none =>
      simp [__gdext_load_library, load_init_code, handle_panic, hb]
  | some p =>
      obtain ⟨s, h⟩ := p
      cases s <;>
        simp [__gdext_load_library, load_init_code, handle_panic, hb]

/-- Closed instance of `c2_load_result_code`: a builder returning true
yields result code 1. -/
theorem c2_witness : (__gdext_load_library trueBuilder st0).1 = 1 :=
  (c2_load_result_code trueBuilder st0).1.mpr ⟨InitHandle.new, rfl⟩

/-- C3: over any sequence of `register_layer` calls on a fresh handle, the
layer stored at a level is the last one registered there (the map holds at
most one layer per level), and dispatch invokes exactly that layer. -/
theorem c3_last_registration_wins
    (regs : List (InitLevel × ExtensionLayer)) (l : InitLevel) :
    (applyRegs InitHandle.new regs).layers l = lastRegistered regs l ∧
    ∀ a, lastRegistered regs l = some a →
      ((applyRegs InitHandle.new regs).run_init_function l).2.1 =
        [Event.initRun l, Event.layerInitRun a.id] ∧
      ((applyRegs InitHandle.new regs).run_deinit_function l).2.1 =
        [Event.deinitRun l, Event.layerDeinitRun a.id] := by
  have hmap : (applyRegs InitHandle.new regs).layers l = lastRegistered regs l := by
    rw [applyRegs_layers]
    cases lastRegistered regs l <;> simp [InitHandle.new]
  refine ⟨hmap, ?_⟩
  intro a ha
  rw [ha] at hmap
  simp [InitHandle.run_init_function, InitHandle.run_deinit_function, hmap]

/-- Closed instance of `c3_last_registration_wins`: registering `layerA`
then `layerA2`, both at `Editor`, dispatches only `layerA2`. -/
theorem c3_witness :
    ((applyRegs InitHandle.new
        [(InitLevel.Editor, layerA), (InitLevel.Editor, layerA2)]).run_init_function
        InitLevel.Editor).2.1 =
      [Event.initRun InitLevel.Editor, Event.layerInitRun layerA2.id] :=
  ((c3_last_registration_wins
      [(InitLevel.Editor, layerA), (InitLevel.Editor, layerA2)]
      InitLevel.Editor).2 layerA2 (by decide)).1

/-- C4: `lowest_init_level` is `Scene` on an empty registry, and otherwise a
registered level that is minimal (in the `ord` order) among all registered
levels. -/
theorem c4_lowest_init_level (h : InitHandle) :
    ((∀ l, h.layers l = none) → h.lowest_init_level = InitLevel.Scene) ∧
    ∀ l, (h.layers l).isSome = true →
      (h.layers h.lowest_init_level).isSome = true ∧
      h.lowest_init_level.ord ≤ l.ord := by
  constructor
  · intro hall
    simp [InitHandle.lowest_init_level, InitLevel.all, hall]
  · intro l hl
    cases hc : h.layers InitLevel.Core <;>
      cases hs : h.layers InitLevel.Servers <;>
      cases hsc : h.layers InitLevel.Scene <;>
      cases he : h.layers InitLevel.Editor <;>
      cases l <;>
      simp_all [InitHandle.lowest_init_level, InitLevel.all, InitLevel.ord]

/-- Closed instance of `c4_lowest_init_level`: on a handle occupied only at
`Servers`, the lowest level is registered and at most `Servers`. -/
theorem c4_witness :
    (exHandleServers.layers exHandleServers.lowest_init_level).isSome = true ∧
    exHandleServers.lowest_init_level.ord ≤ InitLevel.Servers.ord :=
  (c4_lowest_init_level exHandleServers).2 InitLevel.Servers (by decide)

/-- C5: dispatching at a level with no registered layer emits exactly the
skip diagnostic, succeeds, and leaves the handle unchanged; at an occupied
level the registered layer's operation is invoked. -/
theorem c5_dispatch_skip_or_invoke (h : InitHandle) (level : InitLevel) :
    (h.layers level = none →
       h.run_init_function level = (some (), [Event.initSkip level], h) ∧
       h.run_deinit_function level = (some (), [Event.deinitSkip level], h)) ∧
    ∀ layer, h.layers level = some layer →
      Event.layerInitRun layer.id ∈ (h.run_init_function level).2.1 ∧
      Event.layerDeinitRun layer.id ∈ (h.run_deinit_function level).2.1 := by
  constructor
  · intro hnone
    simp [InitHandle.run_init_function, InitHandle.run_deinit_function, hnone]
  · intro layer hsome
    simp [InitHandle.run_init_function, InitHandle.run_deinit_function, hsome]

/-- Closed instance of `c5_dispatch_skip_or_invoke`: dispatch at the
unoccupied `Core` level of `exHandleServers` is a logged no-op. -/
theorem c5_witness :
    exHandleServers.run_init_function InitLevel.Core =
      (some (), [Event.initSkip InitLevel.Core], exHandleServers) ∧
    exHandleServers.run_deinit_function InitLevel.Core =
      (some (), [Event.deinitSkip InitLevel.Core], exHandleServers) :=
  (c5_dispatch_skip_or_invoke exHandleServers InitLevel.Core).1 (by decide)

/-- C6 counterexample: a builder that returns false makes the load fail
(result code 0), yet `INIT_HANDLE` is still populated — so the slot is NOT
set only when the load as a whole succeeds. -/
theorem c6_counterexample :
    (__gdext_load_library falseBuilder st0).1 = 0 ∧
    (__gdext_load_library falseBuilder st0).2.1.INIT_HANDLE =
      some InitHandle.new :=
  ⟨rfl, rfl⟩

/-- C6 (amended): `INIT_HANDLE` is `None` before load and is written exactly
once per load call, at the end of any load body that completes without
panicking — even one that returns failure code 0 because the builder
returned false; it stays `None` only when the load body panics. -/
theorem c6_handle_slot_lifecycle
    (load_library : InitHandle → Option (Bool × InitHandle)) (st : LoadState)
    (h0 : st.INIT_HANDLE = none) :
    (∀ s handle, load_library InitHandle.new = some (s, handle) →
       (__gdext_load_library load_library st).2.1.INIT_HANDLE = some handle) ∧
    (load_library InitHandle.new = none →
       (__gdext_load_library load_library st).2.1.INIT_HANDLE = none) := by
  constructor
  · intro s handle hb
    simp [__gdext_load_library, load_init_code, handle_panic, hb]
  · intro hb
    simp [__gdext_load_library, load_init_code, handle_panic, hb, h0]

/-- Closed instance of `c6_handle_slot_lifecycle`: after a load whose
builder returns false, the slot holds the built handle. -/
theorem c6_witness :
    (__gdext_load_library falseBuilder st0).2.1.INIT_HANDLE =
      some InitHandle.new :=
  (c6_handle_slot_lifecycle falseBuilder st0 rfl).1 false InitHandle.new rfl

/-- C7: every raw level identifier other than the four recognized constants
maps to `Scene` with a warning; `from_sys` never rejects or errors. -/
theorem c7_unknown_level_defaults (raw : Nat)
    (h0 : raw ≠ GDEXTENSION_INITIALIZATION_CORE)
    (h1 : raw ≠ GDEXTENSION_INITIALIZATION_SERVERS)
    (h2 : raw ≠ GDEXTENSION_INITIALIZATION_SCENE)
    (h3 : raw ≠ GDEXTENSION_INITIALIZATION_EDITOR) :
    InitLevel.from_sys raw = InitLevel.Scene ∧
    from_sys_warnings raw = [Event.warnUnknownLevel raw] := by
  simp [InitLevel.from_sys, from_sys_warnings, h0, h1, h2, h3]

/-- Closed instance of `c7_unknown_level_defaults` at raw value 7. -/
theorem c7_witness :
    InitLevel.from_sys 7 = InitLevel.Scene ∧
    from_sys_warnings 7 = [Event.warnUnknownLevel 7] :=
  c7_unknown_level_defaults 7 (by decide) (by decide) (by decide) (by decide)

/-- C8: the `ord` embedding of the derived `Ord` on `InitLevel` is a total
order with `Core < Servers < Scene < Editor`. -/
theorem c8_initlevel_total_order :
    (∀ a b : InitLevel, a.ord ≤ b.ord ∨ b.ord ≤ a.ord) ∧
    (∀ a b : InitLevel, a.ord ≤ b.ord → b.ord ≤ a.ord → a = b) ∧
    (∀ a b c : InitLevel, a.ord ≤ b.ord → b.ord ≤ c.ord → a.ord ≤ c.ord) ∧
    InitLevel.Core.ord < InitLevel.Servers.ord ∧
    InitLevel.Servers.ord < InitLevel.Scene.ord ∧
    InitLevel.Scene.ord < InitLevel.Editor.ord := by
  decide

/-- C9: when the builder returns false without panicking, the load still
fully populates the output table (minimum level from the built handle, null
userdata, both callback pointers) and stores the handle into `INIT_HANDLE`,
then returns failure code 0. -/
theorem c9_failure_still_populates
    (load_library : InitHandle → Option (Bool × InitHandle)) (st : LoadState)
    (handle : InitHandle)
    (hb : load_library InitHandle.new = some (false, handle)) :
    __gdext_load_library load_library st =
      (0,
       ⟨some ⟨handle.lowest_init_level.to_sys, true, true, true⟩, some handle⟩,
       []) := by
  simp [__gdext_load_library, load_init_code, handle_panic, hb]

/-- Closed instance of `c9_failure_still_populates` with the trivial
false-returning builder. -/
theorem c9_witness :
    __gdext_load_library falseBuilder st0 =
      (0,
       ⟨some ⟨InitHandle.new.lowest_init_level.to_sys, true, true, true⟩,
        some InitHandle.new⟩,
       []) :=
  c9_failure_still_populates falseBuilder st0 InitHandle.new rfl

/-- C10: converting a level to the host's raw representation and back is
the identity. -/
theorem c10_roundtrip (l : InitLevel) : InitLevel.from_sys l.to_sys = l := by
  cases l <;> rfl

end GdextInit
